import Mathlib

/-!
Verification development for the PhysiPro authentication core: the auth
reducer and its hook flows (src/features/authentication/hooks, `useAuth`),
the session storage service (src/features/authentication/services/auth-service.ts),
the role-based route guard (src/navigation, `useProtectedRoute`), and the
CPF validators (src/features/authentication/utils/validators.ts).

Strings from the source are modelled as Lean `String` / `List Char`;
JavaScript `null` becomes `Option`; the key-value storage becomes an explicit
`Store` record threaded through the functions; `JSON.parse` with its
try/catch and `JSON.stringify` are abstract parameters (`parse`,
`stringify`); promise rejection is an `Except` / `Option String` outcome.
-/

namespace PhysiPro

/-- User roles, from the `UserType` enum in the authentication types. -/
inductive UserType
  | trainer
  | student
  | admin
deriving DecidableEq

/-- User record, from the `User` interface in the authentication types. -/
structure User where
  id : String
  name : String
  cpf : String
  email : String
  profileImage : Option String
  userType : UserType
deriving DecidableEq

/-- Login credentials, from the `LoginCredentials` interface. -/
structure LoginCredentials where
  cpf : String
  password : String
deriving DecidableEq

/-- Login response, from the `LoginResponse` interface. -/
structure LoginResponse where
  user : User
  token : String
deriving DecidableEq

/-- Auth state, from the `AuthState` interface. -/
structure AuthState where
  user : Option User
  token : Option String
  isLoading : Bool
  error : Option String
  isAuthenticated : Bool
deriving DecidableEq

/-- Auth actions, from the `AuthAction` union type. -/
inductive AuthAction
  | loginRequest
  | loginSuccess (payload : LoginResponse)
  | loginFailure (payload : String)
  | logout
deriving DecidableEq

/-- The initial auth state of `useAuth` (loading while the saved session is checked). -/
def initialState : AuthState :=
  { user := none
    token := none
    isLoading := true
    error := none
    isAuthenticated := false }

/-- The auth reducer of `useAuth`, case by case from the `switch` in the source.
The TypeScript action type is a closed union, so the `default` arm is
unreachable and the four constructors cover every action. -/
def authReducer (state : AuthState) (action : AuthAction) : AuthState :=
  match action with
  | .loginRequest =>
      { state with isLoading := true, error := none }
  | .loginSuccess payload =>
      { state with
        isLoading := false
        isAuthenticated := true
        user := some payload.user
        token := some payload.token
        error := none }
  | .loginFailure payload =>
      { state with
        isLoading := false
        isAuthenticated := false
        error := some payload }
  | .logout =>
      { initialState with isLoading := false }

/-- The two-key session storage: `@PhysiPro:authToken` and `@PhysiPro:userData`.
A field is `none` exactly when the key is absent from AsyncStorage. -/
structure Store where
  token : Option String
  userData : Option String
deriving DecidableEq

namespace AuthService

/-- Save authentication data: `multiSet` writes the token key and the
stringified user key as one atomic batch. `stringify` models `JSON.stringify`. -/
def saveAuthData (stringify : User → String) (data : LoginResponse)
    (_st : Store) : Store :=
  { token := some data.token, userData := some (stringify data.user) }

/-- Clear authentication data: `multiRemove` deletes both keys as one atomic batch. -/
def clearAuthData (_st : Store) : Store :=
  { token := none, userData := none }

/-- Read the saved token key. -/
def getSavedToken (st : Store) : Option String := st.token

/-- Read and parse the saved user key. The source returns `null` when the key
is absent or the stored value is falsy (`if (!userData) return null`, which
also rejects the empty string), and `parse` models `JSON.parse` wrapped in the
try/catch that turns a parse error into `null`. -/
def getSavedUser (parse : String → Option User) (st : Store) : Option User :=
  match st.userData with
  | none => none
  | some s => if s.isEmpty then none else parse s

/-- Whether a user is already logged in: `!!token`, the JavaScript truthiness
of the saved token (absent and empty-string tokens are falsy). -/
def isUserLoggedIn (st : Store) : Bool :=
  match getSavedToken st with
  | none => false
  | some t => !t.isEmpty

/-- The mocked login response returned by the service on a credential match. -/
def mockLoginResponse : LoginResponse :=
  { user := { id := "1"
              name := "Treinador"
              cpf := "123.456.789-10"
              email := "john@example.com"
              profileImage := some "https://via.placeholder.com/150"
              userType := .trainer }
    token := "mock-jwt-token-would-be-here" }

/-- The mocked service login: succeeds exactly on the hard-coded credential
pair, saving the session; otherwise it throws, modelled as `Except.error`
carrying the thrown message. -/
def login (stringify : User → String) (credentials : LoginCredentials)
    (st : Store) : Except String (LoginResponse × Store) :=
  if credentials.cpf == "123.456.789-10" && credentials.password == "password123" then
    .ok (mockLoginResponse, saveAuthData stringify mockLoginResponse st)
  else
    .error "CPF ou senha inválidos."

end AuthService

/-- Outcome of the storage-clear operation inside the hook's `logout`:
it can succeed, report `false`, or throw. -/
inductive StorageResult
  | ok
  | failed
  | threw
deriving DecidableEq

/-- The `checkAuthStatus` routine that `useAuth` runs on mount: consult the
store, rebuild the session when both parts are usable, otherwise dispatch
LOGOUT — clearing the store only on the `user && token` failure branch.
Returns the dispatched-to auth state (the hook starts from `initialState`)
together with the final store. The `if (user && token)` truthiness test makes
an empty-string token fall into the clearing branch. -/
def checkAuthStatus (parse : String → Option User) (st : Store) :
    AuthState × Store :=
  if AuthService.isUserLoggedIn st then
    match AuthService.getSavedUser parse st, AuthService.getSavedToken st with
    | some user, some token =>
        if token.isEmpty then
          (authReducer initialState .logout, AuthService.clearAuthData st)
        else
          (authReducer initialState (.loginSuccess { user := user, token := token }), st)
    | _, _ =>
        (authReducer initialState .logout, AuthService.clearAuthData st)
  else
    (authReducer initialState .logout, st)

/-- The hook's `login`: dispatch LOGIN_REQUEST, call the service, dispatch
LOGIN_SUCCESS or LOGIN_FAILURE, and re-throw the error on failure (the third
component is the re-thrown message, `none` on success). -/
def login (stringify : User → String) (credentials : LoginCredentials)
    (s : AuthState) (st : Store) : AuthState × Store × Option String :=
  let s1 := authReducer s .loginRequest
  match AuthService.login stringify credentials st with
  | .ok (resp, st') => (authReducer s1 (.loginSuccess resp), st', none)
  | .error m => (authReducer s1 (.loginFailure m), st, some m)

/-- The hook's `logout`: clear the store via the service and dispatch LOGOUT.
The source dispatches LOGOUT when the clear succeeds, when it reports
failure (after a warning), and in the catch branch when it throws; the store
is cleared only in the success case. -/
def logout (r : StorageResult) (s : AuthState) (st : Store) :
    AuthState × Store :=
  match r with
  | .ok => (authReducer s .logout, AuthService.clearAuthData st)
  | .failed => (authReducer s .logout, st)
  | .threw => (authReducer s .logout, st)

/-- Routes reachable without authentication, from `PUBLIC_ROUTES`. -/
def PUBLIC_ROUTES : List String := ["login", "register", "forgot-password"]

/-- The role-to-segment mapping, from the `ROLE_ROUTES` object. -/
def ROLE_ROUTES : UserType → String
  | .admin => "admin"
  | .trainer => "trainer"
  | .student => "student"

/-- The list `Object.values(ROLE_ROUTES)`, in the object's key order. -/
def roleRouteValues : List String :=
  [ROLE_ROUTES .admin, ROLE_ROUTES .trainer, ROLE_ROUTES .student]

/-- The redirect decision of `useProtectedRoute`, with `isInitialized` true.
`segments` are the expo-router path segments, so `pathname` is `"/"` followed
by the segments joined with `"/"`, `currentRoute = pathname.substring(1)` is
the joined segments, and `currentModule = segments[0] || ''`. Only the
`userType` field of the user object is consulted, so `user` is modelled as
`Option UserType`. Returns the `router.replace` target, `none` when the guard
does not redirect. -/
def useProtectedRoute (isAuthenticated : Bool) (user : Option UserType)
    (segments : List String) : Option String :=
  let currentRoute := String.intercalate "/" segments
  let currentModule := segments.headD ""
  let inPublicRoute := PUBLIC_ROUTES.contains currentRoute
  let inProtectedRoute := !inPublicRoute
  if inProtectedRoute && !isAuthenticated then
    some "/login"
  else
    match user with
    | some u =>
        if inPublicRoute && isAuthenticated then
          some ("/" ++ ROLE_ROUTES u)
        else if isAuthenticated && !(currentModule == "") &&
            !(currentModule == ROLE_ROUTES u) then
          if roleRouteValues.contains currentModule then
            some ("/" ++ ROLE_ROUTES u)
          else
            none
        else
          none
    | none => none

/-- Modelled from the claim's words, for comparison with `useProtectedRoute`:
the guard policy with every path test performed on the FIRST path segment
(the claim's reading), rather than on the full joined path. -/
def claimRouteRedirect (isAuthenticated : Bool) (user : Option UserType)
    (segments : List String) : Option String :=
  let first := segments.headD ""
  if PUBLIC_ROUTES.contains first && isAuthenticated then
    match user with
    | some u => some ("/" ++ ROLE_ROUTES u)
    | none => none
  else if !(PUBLIC_ROUTES.contains first) && !isAuthenticated then
    some "/login"
  else if isAuthenticated && roleRouteValues.contains first then
    match user with
    | some u =>
        if first == ROLE_ROUTES u then none else some ("/" ++ ROLE_ROUTES u)
    | none => none
  else none

/-- Modelled from the claim's words as amended: the public-route test compares
the FULL path (leading slash removed) with the public set, exactly as the
source's `currentRoute` does; the cross-role test keeps the first segment. -/
def amendedRouteRedirect (isAuthenticated : Bool) (user : Option UserType)
    (segments : List String) : Option String :=
  let currentRoute := String.intercalate "/" segments
  let first := segments.headD ""
  if PUBLIC_ROUTES.contains currentRoute && isAuthenticated then
    match user with
    | some u => some ("/" ++ ROLE_ROUTES u)
    | none => none
  else if !(PUBLIC_ROUTES.contains currentRoute) && !isAuthenticated then
    some "/login"
  else if isAuthenticated && roleRouteValues.contains first then
    match user with
    | some u =>
        if first == ROLE_ROUTES u then none else some ("/" ++ ROLE_ROUTES u)
    | none => none
  else none

/-- The numeric value of a digit character, `parseInt` on a one-character
digit string. -/
def digitVal (c : Char) : Nat := c.toNat - '0'.toNat

/-- Removal of non-numeric characters, `replace(/\D/g, s)` applied to the
character list of the input. -/
def cleanCpf (s : List Char) : List Char := s.filter Char.isDigit

/-- The all-identical test `/^(\d)\1+$/` on an already digits-only list: a
first digit followed by at least one repetition of it, to the end. -/
def allSameDigits : List Char → Bool
  | [] => false
  | c :: rest => !rest.isEmpty && rest.all (fun x => x == c)

/-- Check-digit computation shared by both validator loops:
`remainder < 2 ? 0 : 11 - remainder`. -/
def cpfCheckDigit (sum : Nat) : Nat :=
  if sum % 11 < 2 then 0 else 11 - sum % 11

/-- The validator's summation loop: `for (i = 0; i < count; i++)
sum += parseInt(clean.charAt(i)) * (w0 - i)`. The first loop runs with
`count = 9, w0 = 10`, the second with `count = 10, w0 = 11`. -/
def cpfWeightedSum (l : List Char) (count w0 : Nat) : Nat :=
  (List.range count).foldl (fun acc i => acc + digitVal (l.getD i '0') * (w0 - i)) 0

/-- The CPF validator `isCpfValid` from validators.ts, on the character list
of the input string. -/
def isCpfValid (s : List Char) : Bool :=
  let clean := cleanCpf s
  if clean.length ≠ 11 then false
  else if allSameDigits clean then false
  else if digitVal (clean.getD 9 '0') ≠ cpfCheckDigit (cpfWeightedSum clean 9 10) then
    false
  else
    digitVal (clean.getD 10 '0') == cpfCheckDigit (cpfWeightedSum clean 10 11)

/-- The progressive CPF mask `formatCpf` from validators.ts, on character
lists; `slice(a, b)` becomes `(drop a).take (b - a)`. -/
def formatCpf (s : List Char) : List Char :=
  let clean := cleanCpf s
  if clean.length ≤ 3 then
    clean
  else if clean.length ≤ 6 then
    clean.take 3 ++ '.' :: clean.drop 3
  else if clean.length ≤ 9 then
    clean.take 3 ++ '.' :: ((clean.drop 3).take 3) ++ '.' :: clean.drop 6
  else
    clean.take 3 ++ '.' :: ((clean.drop 3).take 3) ++ '.' :: ((clean.drop 6).take 3)
      ++ '-' :: ((clean.drop 9).take 2)

/-- Removal of the mask characters of a formatted CPF. -/
def removeMask (s : List Char) : List Char :=
  s.filter (fun c => !(c == '.' || c == '-'))

/-- Modelled from the claim's words, for comparison with `isCpfValid`: the
digit sequence that remains after removing non-digit characters. -/
def cpfSpecDigits (s : List Char) : List Nat :=
  (s.filter Char.isDigit).map digitVal

/-- Modelled from the claim's words: the check digit over the first `k`
stored digits with weights `w0, w0 - 1, ...`, as
`11 - (Σ digit[i] * (w0 - i) mod 11)` clamped to 0 when the raw remainder
is below 2. -/
def cpfSpecCheck (ds : List Nat) (k w0 : Nat) : Nat :=
  let r := (((List.range k).map (fun i => ds.getD i 0 * (w0 - i))).sum) % 11
  if r < 2 then 0 else 11 - r

/-- Modelled from the claim's words, for comparison with `isCpfValid`:
exactly 11 digits remain, they are not all identical, digit 9 matches the
first check digit (weights 10..2 over digits 0..8) and digit 10 matches the
second (weights 11..2 over digits 0..9). -/
def cpfSpecValid (s : List Char) : Prop :=
  (cpfSpecDigits s).length = 11 ∧
  (¬ ∀ x ∈ cpfSpecDigits s, x = (cpfSpecDigits s).headD 0) ∧
  (cpfSpecDigits s).getD 9 0 = cpfSpecCheck (cpfSpecDigits s) 9 10 ∧
  (cpfSpecDigits s).getD 10 0 = cpfSpecCheck (cpfSpecDigits s) 10 11

/-- One step of the action history summary used for the auth-state invariant:
the most recent action that was not LOGIN_REQUEST. -/
def settleStep (acc : Option AuthAction) (a : AuthAction) : Option AuthAction :=
  match a with
  | .loginRequest => acc
  | _ => some a

/-- The most recent authentication-settling action (LOGIN_SUCCESS,
LOGIN_FAILURE or LOGOUT) of a dispatched action sequence. -/
def lastSettled (acts : List AuthAction) : Option AuthAction :=
  acts.foldl settleStep none

/-- The session-store operations of the service that write the two session
keys, for sequencing in the storage invariant. -/
inductive AuthOp
  | save (data : LoginResponse)
  | clear
deriving DecidableEq

/-- Apply one store operation. -/
def authOpApply (stringify : User → String) (st : Store) (op : AuthOp) : Store :=
  match op with
  | .save data => AuthService.saveAuthData stringify data st
  | .clear => AuthService.clearAuthData st

/-- A store holding neither session key. -/
def emptyStore : Store := { token := none, userData := none }

/-- The logged-out auth state: what LOGOUT resets to. -/
def loggedOutState : AuthState := { initialState with isLoading := false }

/-! Helper lemmas. -/

theorem uint32_toNat_inj {a b : UInt32} (h : a.toNat = b.toNat) : a = b := by
  cases a; cases b
  simp only [UInt32.toNat] at h
  congr 1
  exact BitVec.toNat_injective h

theorem char_digit_inj {a b : Char} (ha : a.isDigit = true) (hb : b.isDigit = true)
    (h : digitVal a = digitVal b) : a = b := by
  simp only [digitVal] at h
  simp only [Char.isDigit, Bool.and_eq_true, decide_eq_true_eq] at ha hb
  have ha1 : 48 ≤ a.val.toNat := UInt32.le_toNat_of_le (by decide) ha.1
  have hb1 : 48 ≤ b.val.toNat := UInt32.le_toNat_of_le (by decide) hb.1
  have h0 : ('0' : Char).val.toNat = 48 := rfl
  simp only [Char.toNat, h0] at h
  have hv : a.val.toNat = b.val.toNat := by omega
  exact Char.ext (uint32_toNat_inj hv)

/-! Theorems for the claims. -/

/-- C9: the LOGIN_FAILURE transition of the auth reducer changes only the
isLoading, isAuthenticated and error fields; the user and token of the
pre-state are left unchanged. -/
theorem authReducer_loginFailure_frame (s : AuthState) (m : String) :
    (authReducer s (.loginFailure m)).user = s.user ∧
    (authReducer s (.loginFailure m)).token = s.token ∧
    (authReducer s (.loginFailure m)).isLoading = false ∧
    (authReducer s (.loginFailure m)).isAuthenticated = false ∧
    (authReducer s (.loginFailure m)).error = some m :=
  ⟨rfl, rfl, rfl, rfl, rfl⟩

/-- C6: after every call to logout() the auth state is the logged-out state
(user, token and error null, isAuthenticated and isLoading false) regardless
of whether the storage clear succeeded, reported failure, or threw. -/
theorem logout_always_logged_out (r : StorageResult) (s : AuthState) (st : Store) :
    (logout r s st).1.user = none ∧
    (logout r s st).1.token = none ∧
    (logout r s st).1.isAuthenticated = false ∧
    (logout r s st).1.isLoading = false ∧
    (logout r s st).1.error = none := by
  cases r <;> exact ⟨rfl, rfl, rfl, rfl, rfl⟩

/-- C5: whenever the credential check rejects with message m, the hook's
login re-throws m and leaves isLoading false, isAuthenticated false and
error m; the attached error is cleared by the next LOGIN_REQUEST
transition. -/
theorem login_failure_state (stringify : User → String) (c : LoginCredentials)
    (s : AuthState) (st : Store) (m : String)
    (h : AuthService.login stringify c st = .error m) :
    (login stringify c s st).2.2 = some m ∧
    (login stringify c s st).1.isLoading = false ∧
    (login stringify c s st).1.isAuthenticated = false ∧
    (login stringify c s st).1.error = some m ∧
    (authReducer (login stringify c s st).1 .loginRequest).error = none := by
  simp [login, h, authReducer]

/-- Witness for C5: the concrete credentials bad/bad are rejected by the
mocked credential check, and the login flow attaches the rejection message. -/
theorem login_failure_state_witness :
    (login (fun _ => "") ⟨"bad", "bad"⟩ initialState emptyStore).2.2
      = some "CPF ou senha inválidos." ∧
    (login (fun _ => "") ⟨"bad", "bad"⟩ initialState emptyStore).1.isLoading = false ∧
    (login (fun _ => "") ⟨"bad", "bad"⟩ initialState emptyStore).1.isAuthenticated = false ∧
    (login (fun _ => "") ⟨"bad", "bad"⟩ initialState emptyStore).1.error
      = some "CPF ou senha inválidos." ∧
    (authReducer (login (fun _ => "") ⟨"bad", "bad"⟩ initialState emptyStore).1
      .loginRequest).error = none :=
  login_failure_state (fun _ => "") ⟨"bad", "bad"⟩ initialState emptyStore
    "CPF ou senha inválidos." rfl

theorem store_inv_preserved (stringify : User → String) (ops : List AuthOp) (st : Store)
    (h : (st.token.isSome = true ∧ st.userData.isSome = true) ∨
      (st.token = none ∧ st.userData = none)) :
    ((ops.foldl (authOpApply stringify) st).token.isSome = true ∧
     (ops.foldl (authOpApply stringify) st).userData.isSome = true) ∨
    ((ops.foldl (authOpApply stringify) st).token = none ∧
     (ops.foldl (authOpApply stringify) st).userData = none) := by
  induction ops generalizing st with
  | nil => exact h
  | cons op t ih =>
    simp only [List.foldl_cons]
    apply ih
    cases op with
    | save data => exact Or.inl ⟨rfl, rfl⟩
    | clear => exact Or.inr ⟨rfl, rfl⟩

/-- C7: starting from a store with both session keys absent, any sequence of
saveAuthData and clearAuthData operations leaves the store holding either
both keys or neither — never a partial pair. -/
theorem store_both_or_neither (stringify : User → String) (ops : List AuthOp) :
    ((ops.foldl (authOpApply stringify) emptyStore).token.isSome = true ∧
     (ops.foldl (authOpApply stringify) emptyStore).userData.isSome = true) ∨
    ((ops.foldl (authOpApply stringify) emptyStore).token = none ∧
     (ops.foldl (authOpApply stringify) emptyStore).userData = none) :=
  store_inv_preserved stringify ops emptyStore (Or.inr ⟨rfl, rfl⟩)

/-- C1 (counterexample): with a store holding a user record but no token —
exactly one component of a session — checkAuthStatus settles into the
logged-out state but leaves the store untouched, so the user-data key is
still present afterwards, refuting the claim that both storage keys end up
absent in every partial-session case. -/
theorem checkAuthStatus_no_token_keeps_user_record :
    checkAuthStatus (fun _ => none) { token := none, userData := some "user-record" }
      = (loggedOutState, { token := none, userData := some "user-record" }) ∧
    ({ token := none, userData := some "user-record" } : Store).userData ≠ none :=
  ⟨rfl, by simp⟩

/-- C1 (amended): with a non-empty token whose companion user record is
absent or unparsable, checkAuthStatus clears the store and settles into the
logged-out state with both keys absent; with no token, checkAuthStatus
settles into the logged-out state but leaves the store (and hence a stray
user-data key) untouched. -/
theorem checkAuthStatus_partial_session (parse : String → Option User)
    (t : String) (ud : Option String)
    (ht : t.isEmpty = false)
    (hu : AuthService.getSavedUser parse { token := some t, userData := ud } = none) :
    checkAuthStatus parse { token := some t, userData := ud }
      = (loggedOutState, emptyStore) ∧
    checkAuthStatus parse { token := none, userData := ud }
      = (loggedOutState, { token := none, userData := ud }) := by
  constructor
  · have hlog : AuthService.isUserLoggedIn { token := some t, userData := ud } = true := by
      simp [AuthService.isUserLoggedIn, AuthService.getSavedToken, ht]
    simp [checkAuthStatus, hlog, hu, AuthService.getSavedToken,
      AuthService.clearAuthData, authReducer, loggedOutState, emptyStore]
  · rfl

/-- Witness for C1: a concrete non-empty token stored next to an unparsable
user record is cleared, and a concrete user record stored without a token
survives the logged-out settling. -/
theorem checkAuthStatus_partial_session_witness :
    checkAuthStatus (fun _ => none) { token := some "token-value", userData := some "not-json" }
      = (loggedOutState, emptyStore) ∧
    checkAuthStatus (fun _ => none) { token := none, userData := some "not-json" }
      = (loggedOutState, { token := none, userData := some "not-json" }) :=
  checkAuthStatus_partial_session (fun _ => none) "token-value" (some "not-json") rfl rfl

theorem auth_inv_aux (acts : List AuthAction) (s : AuthState) (ls : Option AuthAction)
    (h : s.isAuthenticated = true ↔
      (s.user ≠ none ∧ s.token ≠ none ∧ ∃ p, ls = some (.loginSuccess p))) :
    (acts.foldl authReducer s).isAuthenticated = true ↔
      ((acts.foldl authReducer s).user ≠ none ∧
       (acts.foldl authReducer s).token ≠ none ∧
       ∃ p, acts.foldl settleStep ls = some (.loginSuccess p)) := by
  induction acts generalizing s ls with
  | nil => exact h
  | cons a t ih =>
    simp only [List.foldl_cons]
    apply ih
    cases a with
    | loginRequest => simpa [authReducer, settleStep] using h
    | loginSuccess p => simp [authReducer, settleStep]
    | loginFailure m => simp [authReducer, settleStep]
    | logout => simp [authReducer, settleStep, initialState]

/-- C3 (counterexample): dispatching LOGIN_SUCCESS and then LOGIN_REQUEST
reaches a state that is authenticated with non-null user and token although
the most recent dispatched action is LOGIN_REQUEST, not LOGIN_SUCCESS —
refuting the claim as stated. -/
theorem isAuthenticated_last_action_counterexample :
    (([AuthAction.loginSuccess AuthService.mockLoginResponse,
       AuthAction.loginRequest].foldl authReducer initialState).isAuthenticated = true) ∧
    (([AuthAction.loginSuccess AuthService.mockLoginResponse,
       AuthAction.loginRequest].foldl authReducer initialState).user
      = some AuthService.mockLoginResponse.user) ∧
    (([AuthAction.loginSuccess AuthService.mockLoginResponse,
       AuthAction.loginRequest].foldl authReducer initialState).token
      = some AuthService.mockLoginResponse.token) ∧
    ([AuthAction.loginSuccess AuthService.mockLoginResponse,
      AuthAction.loginRequest].getLast? = some AuthAction.loginRequest) :=
  ⟨rfl, rfl, rfl, rfl⟩

/-- C3 (amended): in every auth state reachable from the initial state,
isAuthenticated is true iff user and token are both non-null and the most
recent authentication-settling action — LOGIN_SUCCESS, LOGIN_FAILURE or
LOGOUT, ignoring the state-preserving LOGIN_REQUEST — was LOGIN_SUCCESS. -/
theorem isAuthenticated_iff_lastSettled_success (acts : List AuthAction) :
    (acts.foldl authReducer initialState).isAuthenticated = true ↔
      ((acts.foldl authReducer initialState).user ≠ none ∧
       (acts.foldl authReducer initialState).token ≠ none ∧
       ∃ p, lastSettled acts = some (.loginSuccess p)) :=
  auth_inv_aux acts initialState none (by simp [initialState])

theorem foldl_add_map (g : Nat → Nat) (l : List Nat) (a : Nat) :
    l.foldl (fun acc i => acc + g i) a = a + (l.map g).sum := by
  induction l generalizing a with
  | nil => simp
  | cons x t ih => simp [ih, Nat.add_assoc]

theorem getD_map_digitVal (l : List Char) (i : Nat) :
    (l.map digitVal).getD i 0 = digitVal (l.getD i '0') := by
  induction l generalizing i with
  | nil => simp [List.getD, digitVal]
  | cons c t ih =>
    cases i with
    | zero => rfl
    | succ n => simpa using ih n

theorem cpfWeightedSum_eq_spec (l : List Char) (k w0 : Nat) :
    cpfWeightedSum l k w0
      = ((List.range k).map (fun i => (l.map digitVal).getD i 0 * (w0 - i))).sum := by
  unfold cpfWeightedSum
  rw [foldl_add_map, Nat.zero_add]
  refine congrArg List.sum (List.map_congr_left fun i _ => ?_)
  rw [getD_map_digitVal]

theorem cpfSpecCheck_eq (l : List Char) (k w0 : Nat) :
    cpfSpecCheck (l.map digitVal) k w0 = cpfCheckDigit (cpfWeightedSum l k w0) := by
  simp only [cpfSpecCheck, cpfCheckDigit]
  rw [cpfWeightedSum_eq_spec]

theorem allSameDigits_iff (l : List Char) (hd : ∀ c ∈ l, c.isDigit = true)
    (hlen : 2 ≤ l.length) :
    allSameDigits l = true ↔ ∀ x ∈ l.map digitVal, x = (l.map digitVal).headD 0 := by
  cases l with
  | nil => simp at hlen
  | cons c rest =>
    have hne : rest.isEmpty = false := by
      cases rest with
      | nil => simp at hlen
      | cons _ _ => rfl
    simp only [allSameDigits, hne, Bool.not_false, Bool.true_and, List.map_cons,
      List.headD_cons]
    rw [List.all_eq_true]
    constructor
    · intro h x hx
      rcases List.mem_cons.mp hx with rfl | hx2
      · rfl
      · rcases List.mem_map.mp hx2 with ⟨y, hy, rfl⟩
        rw [eq_of_beq (h y hy)]
    · intro h y hy
      have hxy : digitVal y = digitVal c :=
        h (digitVal y) (List.mem_cons_of_mem _ (List.mem_map_of_mem _ hy))
      have : y = c := char_digit_inj (hd y (List.mem_cons_of_mem _ hy))
        (hd c (List.mem_cons_self _ _)) hxy
      simp [this]

theorem isCpfValid_iff_spec (s : List Char) :
    isCpfValid s = true ↔ cpfSpecValid s := by
  have hd : ∀ c ∈ s.filter Char.isDigit, c.isDigit = true :=
    fun c hc => (List.mem_filter.mp hc).2
  have key : isCpfValid s = true ↔
      ((s.filter Char.isDigit).length = 11 ∧
       allSameDigits (s.filter Char.isDigit) = false ∧
       digitVal ((s.filter Char.isDigit).getD 9 '0')
         = cpfCheckDigit (cpfWeightedSum (s.filter Char.isDigit) 9 10) ∧
       digitVal ((s.filter Char.isDigit).getD 10 '0')
         = cpfCheckDigit (cpfWeightedSum (s.filter Char.isDigit) 10 11)) := by
    simp only [isCpfValid, cleanCpf]
    split_ifs with h1 h2 h3
    · exact iff_of_false (by simp) (fun h => h1 h.1)
    · refine iff_of_false (by simp) (fun h => ?_)
      rw [h.2.1] at h2
      exact Bool.false_ne_true h2
    · exact iff_of_false (by simp) (fun h => h3 h.2.2.1)
    · rw [beq_iff_eq]
      exact ⟨fun h4 => ⟨not_ne_iff.mp h1, by simpa using h2, not_not.mp h3, h4⟩,
        fun h => h.2.2.2⟩
  have key2 : cpfSpecValid s ↔
      ((s.filter Char.isDigit).length = 11 ∧
       allSameDigits (s.filter Char.isDigit) = false ∧
       digitVal ((s.filter Char.isDigit).getD 9 '0')
         = cpfCheckDigit (cpfWeightedSum (s.filter Char.isDigit) 9 10) ∧
       digitVal ((s.filter Char.isDigit).getD 10 '0')
         = cpfCheckDigit (cpfWeightedSum (s.filter Char.isDigit) 10 11)) := by
    unfold cpfSpecValid cpfSpecDigits
    rw [cpfSpecCheck_eq, cpfSpecCheck_eq, getD_map_digitVal, getD_map_digitVal,
      List.length_map]
    constructor
    · rintro ⟨h1, h2, h3, h4⟩
      refine ⟨h1, ?_, h3, h4⟩
      cases hs : allSameDigits (s.filter Char.isDigit)
      · rfl
      · exact absurd ((allSameDigits_iff _ hd (by omega)).mp hs) h2
    · rintro ⟨h1, h2, h3, h4⟩
      refine ⟨h1, fun hall => ?_, h3, h4⟩
      have hb := (allSameDigits_iff _ hd (by omega)).mpr hall
      rw [h2] at hb
      exact absurd hb (by decide)
  exact key.trans key2.symm

/-- C4: the CPF validator is total by construction and agrees, on every
input string, with the specified checksum predicate: exactly 11 digits after
removing non-digit characters, not all identical, and both check digits
matching the weighted-sum formulas; the claim's three concrete cases are
evaluated in the conjunction. -/
theorem isCpfValid_matches_spec :
    (∀ s : List Char, isCpfValid s = true ↔ cpfSpecValid s) ∧
    isCpfValid "111.111.111-11".toList = false ∧
    isCpfValid "529.982.247-25".toList = true ∧
    isCpfValid "529.982.247-24".toList = false :=
  ⟨isCpfValid_iff_spec, by decide, by decide, by decide⟩

theorem digit_not_mask {c : Char} (h : c.isDigit = true) :
    (!(c == '.' || c == '-')) = true := by
  by_cases h1 : c = '.'
  · subst h1; exact absurd h (by decide)
  · by_cases h2 : c = '-'
    · subst h2; exact absurd h (by decide)
    · simp [h1, h2]

theorem removeMask_digits (l : List Char) (h : ∀ c ∈ l, c.isDigit = true) :
    removeMask l = l :=
  List.filter_eq_self.mpr fun c hc => digit_not_mask (h c hc)

theorem removeMask_append (a b : List Char) :
    removeMask (a ++ b) = removeMask a ++ removeMask b :=
  List.filter_append _ _

theorem removeMask_dot (l : List Char) : removeMask ('.' :: l) = removeMask l := rfl

theorem removeMask_dash (l : List Char) : removeMask ('-' :: l) = removeMask l := rfl

theorem drop_take_chain (d : List Char) (h : d.length ≤ 11) :
    d.take 3 ++ (d.drop 3).take 3 ++ (d.drop 6).take 3 ++ (d.drop 9).take 2 = d := by
  rw [List.append_assoc, List.append_assoc]
  have h1 : (d.drop 9).take 2 = d.drop 9 := by
    apply List.take_of_length_le
    simp
    omega
  have h9 : d.drop 9 = List.drop 3 (d.drop 6) := by rw [List.drop_drop]
  have h6 : d.drop 6 = List.drop 3 (d.drop 3) := by rw [List.drop_drop]
  rw [h1, h9, List.take_append_drop, h6, List.take_append_drop, List.take_append_drop]

/-- C8: applying formatCpf to a string of exactly 11 digits and then removing
the mask characters '.' and '-' reproduces the 11 digits exactly; on digit
strings shorter than 11 digits the formatter appends no mask character beyond
the available digits — whenever the output has a last character, that
character is a digit (the empty digit string formats to the empty output). -/
theorem formatCpf_roundtrip (d : List Char) (hall : ∀ c ∈ d, c.isDigit = true) :
    (d.length = 11 → removeMask (formatCpf d) = d) ∧
    (d.length < 11 → ∀ c, (formatCpf d).getLast? = some c → c.isDigit = true) := by
  have hc : cleanCpf d = d := List.filter_eq_self.mpr hall
  have hsub3 : ∀ c ∈ d.take 3, c.isDigit = true :=
    fun c hc2 => hall c (List.take_subset _ _ hc2)
  have hsubd3 : ∀ c ∈ (d.drop 3).take 3, c.isDigit = true :=
    fun c hc2 => hall c (List.drop_subset _ _ (List.take_subset _ _ hc2))
  have hsubd6 : ∀ c ∈ (d.drop 6).take 3, c.isDigit = true :=
    fun c hc2 => hall c (List.drop_subset _ _ (List.take_subset _ _ hc2))
  have hsubd9 : ∀ c ∈ (d.drop 9).take 2, c.isDigit = true :=
    fun c hc2 => hall c (List.drop_subset _ _ (List.take_subset _ _ hc2))
  constructor
  · intro h11
    have e : formatCpf d
        = d.take 3 ++ '.' :: ((d.drop 3).take 3) ++ '.' :: ((d.drop 6).take 3)
          ++ '-' :: ((d.drop 9).take 2) := by
      simp only [formatCpf, hc]
      rw [if_neg (by omega), if_neg (by omega), if_neg (by omega)]
    rw [e, removeMask_append, removeMask_append, removeMask_append,
      removeMask_dot, removeMask_dot, removeMask_dash,
      removeMask_digits _ hsub3, removeMask_digits _ hsubd3,
      removeMask_digits _ hsubd6, removeMask_digits _ hsubd9]
    exact drop_take_chain d (by omega)
  · intro hlt c hc2
    by_cases b3 : d.length ≤ 3
    · have e : formatCpf d = d := by
        simp only [formatCpf, hc]
        rw [if_pos b3]
      rw [e] at hc2
      exact hall c (List.mem_of_getLast?_eq_some hc2)
    · by_cases b6 : d.length ≤ 6
      · have e : formatCpf d = d.take 3 ++ '.' :: d.drop 3 := by
          simp only [formatCpf, hc]
          rw [if_neg b3, if_pos b6]
        have hne : d.drop 3 ≠ [] := by
          apply List.length_pos.mp
          simp
          omega
        rw [e, List.getLast?_append_cons,
          show ('.' :: d.drop 3) = ['.'] ++ d.drop 3 from rfl,
          List.getLast?_append_of_ne_nil _ hne] at hc2
        exact hall c (List.drop_subset _ _ (List.mem_of_getLast?_eq_some hc2))
      · by_cases b9 : d.length ≤ 9
        · have e : formatCpf d
              = d.take 3 ++ '.' :: ((d.drop 3).take 3) ++ '.' :: d.drop 6 := by
            simp only [formatCpf, hc]
            rw [if_neg b3, if_neg b6, if_pos b9]
          have hne : d.drop 6 ≠ [] := by
            apply List.length_pos.mp
            simp
            omega
          rw [e, List.getLast?_append_cons,
            show ('.' :: d.drop 6) = ['.'] ++ d.drop 6 from rfl,
            List.getLast?_append_of_ne_nil _ hne] at hc2
          exact hall c (List.drop_subset _ _ (List.mem_of_getLast?_eq_some hc2))
        · have e : formatCpf d
              = d.take 3 ++ '.' :: ((d.drop 3).take 3) ++ '.' :: ((d.drop 6).take 3)
                ++ '-' :: ((d.drop 9).take 2) := by
            simp only [formatCpf, hc]
            rw [if_neg b3, if_neg b6, if_neg b9]
          have hne : (d.drop 9).take 2 ≠ [] := by
            apply List.length_pos.mp
            simp
            omega
          rw [e, List.getLast?_append_cons,
            show ('-' :: (d.drop 9).take 2) = ['-'] ++ (d.drop 9).take 2 from rfl,
            List.getLast?_append_of_ne_nil _ hne] at hc2
          exact hsubd9 c (List.mem_of_getLast?_eq_some hc2)

theorem cleanCpf_formatCpf (d : List Char) (hall : ∀ c ∈ d, c.isDigit = true)
    (hlen : d.length ≤ 11) : cleanCpf (formatCpf d) = d := by
  have hc : cleanCpf d = d := List.filter_eq_self.mpr hall
  have happ : ∀ a b : List Char, cleanCpf (a ++ b) = cleanCpf a ++ cleanCpf b :=
    fun a b => List.filter_append _ _
  have hdot : ∀ l : List Char, cleanCpf ('.' :: l) = cleanCpf l := fun l => rfl
  have hdash : ∀ l : List Char, cleanCpf ('-' :: l) = cleanCpf l := fun l => rfl
  have htake3 : cleanCpf (d.take 3) = d.take 3 :=
    List.filter_eq_self.mpr fun c hc2 => hall c (List.take_subset _ _ hc2)
  have hdrop3 : cleanCpf (d.drop 3) = d.drop 3 :=
    List.filter_eq_self.mpr fun c hc2 => hall c (List.drop_subset _ _ hc2)
  have hdrop6 : cleanCpf (d.drop 6) = d.drop 6 :=
    List.filter_eq_self.mpr fun c hc2 => hall c (List.drop_subset _ _ hc2)
  have htd3 : cleanCpf ((d.drop 3).take 3) = (d.drop 3).take 3 :=
    List.filter_eq_self.mpr fun c hc2 =>
      hall c (List.drop_subset _ _ (List.take_subset _ _ hc2))
  have htd6 : cleanCpf ((d.drop 6).take 3) = (d.drop 6).take 3 :=
    List.filter_eq_self.mpr fun c hc2 =>
      hall c (List.drop_subset _ _ (List.take_subset _ _ hc2))
  have htd9 : cleanCpf ((d.drop 9).take 2) = (d.drop 9).take 2 :=
    List.filter_eq_self.mpr fun c hc2 =>
      hall c (List.drop_subset _ _ (List.take_subset _ _ hc2))
  by_cases b3 : d.length ≤ 3
  · simp only [formatCpf, hc]
    rw [if_pos b3]
    exact hc
  · by_cases b6 : d.length ≤ 6
    · simp only [formatCpf, hc]
      rw [if_neg b3, if_pos b6, happ, hdot, htake3, hdrop3, List.take_append_drop]
    · by_cases b9 : d.length ≤ 9
      · simp only [formatCpf, hc]
        rw [if_neg b3, if_neg b6, if_pos b9, happ, happ, hdot, hdot, htake3, htd3,
          hdrop6]
        have h6 : d.drop 6 = List.drop 3 (d.drop 3) := by rw [List.drop_drop]
        rw [List.append_assoc, h6, List.take_append_drop, List.take_append_drop]
      · simp only [formatCpf, hc]
        rw [if_neg b3, if_neg b6, if_neg b9, happ, happ, happ, hdot, hdot, hdash,
          htake3, htd3, htd6, htd9]
        exact drop_take_chain d hlen

theorem isCpfValid_congr {s t : List Char} (h : cleanCpf s = cleanCpf t) :
    isCpfValid s = isCpfValid t := by
  simp only [isCpfValid]
  rw [h]

/-- Witness for C8: the valid 11-digit CPF round-trips through the mask, and
a concrete 7-digit input ends in the digit 2 after formatting. -/
theorem formatCpf_roundtrip_witness :
    removeMask (formatCpf "52998224725".toList) = "52998224725".toList ∧
    Char.isDigit '2' = true :=
  ⟨(formatCpf_roundtrip "52998224725".toList (by decide)).1 (by decide),
   (formatCpf_roundtrip "5299822".toList (by decide)).2 (by decide) '2' (by decide)⟩

/-- C10: non-digit characters never affect the CPF verdict: the validator
agrees with itself applied to the digit subsequence of any input, and
formatting a digit string of length at most 11 leaves its verdict
unchanged. -/
theorem isCpfValid_digits_only (s d : List Char) (hall : ∀ c ∈ d, c.isDigit = true)
    (hlen : d.length ≤ 11) :
    isCpfValid s = isCpfValid (s.filter Char.isDigit) ∧
    isCpfValid (formatCpf d) = isCpfValid d := by
  have hc : cleanCpf d = d := List.filter_eq_self.mpr hall
  constructor
  · apply isCpfValid_congr
    simp only [cleanCpf, List.filter_filter]
    simp [Bool.and_self]
  · apply isCpfValid_congr
    rw [cleanCpf_formatCpf d hall hlen, hc]

/-- Witness for C10: a concrete masked CPF string and the digit string of the
valid CPF instantiate both parts of the digits-only property. -/
theorem isCpfValid_digits_only_witness :
    isCpfValid "529.982.247-25".toList
      = isCpfValid ("529.982.247-25".toList.filter Char.isDigit) ∧
    isCpfValid (formatCpf "52998224725".toList) = isCpfValid "52998224725".toList :=
  isCpfValid_digits_only "529.982.247-25".toList "52998224725".toList
    (by decide) (by decide)

/-- C2 (counterexample): on the two-segment path /login/extra with an
unauthenticated user, the first segment login is in the public set, so the
claim as stated predicts no redirect; the guard compares the full joined
path against the public set, treats it as protected, and redirects to
/login. -/
theorem useProtectedRoute_first_segment_counterexample :
    useProtectedRoute false none ["login", "extra"] = some "/login" ∧
    claimRouteRedirect false none ["login", "extra"] = none :=
  ⟨rfl, rfl⟩

/-- C2 (amended): the guard equals the claimed policy once the public-route
test is read on the full path (leading slash removed) instead of the first
segment: public path and authenticated goes to the role home, non-public
path and unauthenticated goes to /login, authenticated users on a recognized
first segment other than their own are sent home, and every other case does
not redirect. -/
theorem useProtectedRoute_eq_amendedRouteRedirect (a : Bool) (u : Option UserType)
    (segs : List String) :
    useProtectedRoute a u segs = amendedRouteRedirect a u segs := by
  simp only [useProtectedRoute, amendedRouteRedirect]
  cases u with
  | none =>
      cases a <;> cases hP : PUBLIC_ROUTES.contains (String.intercalate "/" segs) <;>
        simp [hP]
  | some r =>
      cases a <;> cases hP : PUBLIC_ROUTES.contains (String.intercalate "/" segs) <;>
        cases hR : roleRouteValues.contains (segs.headD "") <;>
        cases hM : segs.headD "" == ROLE_ROUTES r <;>
        cases hE : segs.headD "" == "" <;>
        simp [hP, hR, hM, hE]
      all_goals
        exfalso
        have hf : segs.headD "" = "" := by simpa using hE
        rw [hf] at hR
        simp [roleRouteValues, ROLE_ROUTES] at hR

end PhysiPro
